import Mathlib

/-!
# PorkBunDDNS: a shallow embedding of the reconciliation core

This file embeds the three Python source files of the PorkBunDDNS repository
(`updater.py`, `porkbunddns/porkbun.py`, `porkbunddns/ipify.py`) as Lean
definitions and proves properties of the embedding.

The external world (HTTP transport) is modelled by an `HttpResult` input per
request: either a transport-level failure (`requests.RequestException`,
timeout) or a response carrying a status code and a parsed JSON body.  JSON
bodies are modelled by the `JValue` inductive; an object node stands for the
dict produced by JSON parsing (keys assumed unique, as `json` dicts are).

Python's built-in `int(s)` (decimal string to integer, used for the TTL) and
`str(n)` (integer to decimal string) are modelled explicitly over ASCII
strings by `pythonInt` and `pyStr`.
-/

namespace PorkBunDDNS

/-- A JSON value, as produced by parsing an HTTP response body. -/
inductive JValue where
  | null
  | bool (b : Bool)
  | num (n : Int)
  | str (s : String)
  | arr (xs : List JValue)
  | obj (fields : List (String × JValue))
deriving Repr

/-- Outcome of one HTTP request: transport-level failure
(`requests.RequestException`, including timeouts), or a response with a
status code and a JSON body. -/
inductive HttpResult where
  | transportError
  | response (code : Nat) (body : JValue)
deriving Repr

/-- The error taxonomy of the Python code: `requests.RequestException`
(transport), `requests.HTTPError` raised by `raise_for_status`, a pydantic
`ValidationError` (schema mismatch), `IndexError` from `records[0]` on an
empty list, and `ValueError` from `int()` on a non-numeric string. -/
inductive SvcError where
  | transport
  | httpStatus (code : Nat)
  | schema (field : String)
  | indexError
  | valueError (s : String)
deriving DecidableEq, Repr

/-- `requests.Response.raise_for_status` raises `HTTPError` exactly for
status codes in [400, 600). -/
def raiseForStatusFails (code : Nat) : Bool :=
  400 ≤ code && code < 600

/-- Look a key up in a parsed JSON object (dict semantics: keys unique). -/
def getField (fields : List (String × JValue)) (k : String) : Option JValue :=
  match fields with
  | [] => none
  | (k', v) :: rest => if k' = k then some v else getField rest k

/-- Numeric value of an ASCII digit character. -/
def charToDigit (c : Char) : Nat := c.toNat - 48

/-- Tail of Python's decimal-literal scan: consumes digits, allowing a single
underscore between two digits (Python 3.6+ grouping), accumulating the value. -/
def parseDigitsAux (acc : Nat) : List Char → Option Nat
  | [] => some acc
  | c :: rest =>
    if c.isDigit then parseDigitsAux (acc * 10 + charToDigit c) rest
    else if c = '_' then
      match rest with
      | [] => none
      | c2 :: rest2 =>
        if c2.isDigit then parseDigitsAux (acc * 10 + charToDigit c2) rest2 else none
    else none

/-- Python's decimal-digit run: nonempty, starts with a digit (not an
underscore), single underscores allowed between digits. -/
def parseDigits : List Char → Option Nat
  | [] => none
  | c :: rest => if c.isDigit then parseDigitsAux (charToDigit c) rest else none

/-- Strip leading and trailing whitespace, as `int()` does before scanning. -/
def pyTrim (cs : List Char) : List Char :=
  ((cs.dropWhile Char.isWhitespace).reverse.dropWhile Char.isWhitespace).reverse

/-- Model of Python's built-in `int(s)` on ASCII strings: optional
surrounding whitespace, optional single `+`/`-` sign, then a nonempty digit
run; `none` models the `ValueError` Python raises otherwise. -/
def pythonInt (s : String) : Option Int :=
  match pyTrim s.data with
  | [] => none
  | c :: rest =>
    if c = '+' then (parseDigits rest).map Int.ofNat
    else if c = '-' then (parseDigits rest).map (fun n => -(n : Int))
    else (parseDigits (c :: rest)).map Int.ofNat

/-- Little-endian decimal digits of a natural number, as characters. -/
def natToDigitsRev (n : Nat) : List Char :=
  if _h : n < 10 then [Nat.digitChar n]
  else Nat.digitChar (n % 10) :: natToDigitsRev (n / 10)
decreasing_by exact Nat.div_lt_self (by omega) (by omega)

/-- Model of Python's `str(n)` for a natural number: canonical decimal. -/
def pyStrNat (n : Nat) : String := ⟨(natToDigitsRev n).reverse⟩

/-- Model of Python's `str(t)` for an integer: canonical decimal digits with
a leading `-` for negative values. -/
def pyStr (t : Int) : String :=
  ⟨if t < 0 then '-' :: (natToDigitsRev t.natAbs).reverse
   else (natToDigitsRev t.natAbs).reverse⟩

/-! ## `porkbunddns/ipify.py` -/

/-- `class IPifyResponseModel(pydantic.BaseModel)`: one required string
field `ip`. -/
structure IPifyResponseModel where
  ip : String
deriving DecidableEq, Repr

/-- `@dataclasses.dataclass class IP`: holds IP information. -/
structure IP where
  ip : String
deriving DecidableEq, Repr

/-- `class IPify`: its stored configuration, set in `__init__`
(`self.timeout = timeout`; `verbose` only touches the module logger, it is
not stored). -/
structure IPify where
  timeout : Int
deriving DecidableEq, Repr

/-- `IPifyResponseModel.model_validate_json`: the body must be a JSON object
whose `ip` member is a string (pydantic v2 performs no int-to-str coercion
in JSON mode); extra members are ignored.  A malformed or mistyped body is a
pydantic `ValidationError`. -/
def IPifyResponseModel.validate (v : JValue) : Except SvcError IPifyResponseModel :=
  match v with
  | .obj fs =>
    match getField fs "ip" with
    | some (.str s) => .ok ⟨s⟩
    | _ => .error (.schema "ip")
  | _ => .error (.schema "ip")

/-- `IPify._IPIFY_API_ENDPOINT`. -/
def IPify.endpoint : String := "https://api.ipify.org/?format=json"

/-- `IPify.get_current_ip`: GET the endpoint, `raise_for_status`, validate
the body as `IPifyResponseModel`, return `IP(ip=parsed.ip)`.  The response
of the GET request is the `resp` input. -/
def IPify.get_current_ip (_c : IPify) (resp : HttpResult) : Except SvcError IP :=
  match resp with
  | .transportError => .error .transport
  | .response code body =>
    if raiseForStatusFails code then .error (.httpStatus code)
    else
      match IPifyResponseModel.validate body with
      | .error e => .error e
      | .ok parsed => .ok ⟨parsed.ip⟩

/-! ## `porkbunddns/porkbun.py` -/

/-- `class DNSARecordModel(pydantic.BaseModel)`: `name: str`,
`type: typing.Literal["A"]`, `content: str`, `ttl: str`. -/
structure DNSARecordModel where
  name : String
  type : String
  content : String
  ttl : String
deriving DecidableEq, Repr

/-- `class DNSARecordResponseModel(pydantic.BaseModel)`:
`status: typing.Literal["SUCCESS"]`, `records: typing.List[DNSARecordModel]`. -/
structure DNSARecordResponseModel where
  status : String
  records : List DNSARecordModel
deriving DecidableEq, Repr

/-- The body of `DNSARecordResponseModel.check_records_length` as written:
reject any records list whose length is not 1 with a `ValueError`.

Note: in the source this function is decorated `@classmethod` **outside**
`@pydantic.validator("records")`; the outer `classmethod` hides pydantic's
decorator proxy from the model metaclass, so the framework never registers
or runs it during validation.  It is embedded here as the standalone
function it effectively is; `DNSARecordResponseModel.validate` below
(faithful to the runtime behaviour) does not invoke it. -/
def check_records_length (v : List DNSARecordModel) :
    Except String (List DNSARecordModel) :=
  if v.length ≠ 1 then .error "Records list must contain exactly one item"
  else .ok v

/-- Field validation of one `DNSARecordModel` from a JSON object: `name`,
`content`, `ttl` must be strings, `type` must be the literal `"A"`. -/
def DNSARecordModel.validate (v : JValue) : Except SvcError DNSARecordModel :=
  match v with
  | .obj fs =>
    match getField fs "name", getField fs "type",
          getField fs "content", getField fs "ttl" with
    | some (.str nm), some (.str ty), some (.str ct), some (.str tl) =>
      if ty = "A" then .ok ⟨nm, ty, ct, tl⟩ else .error (.schema "type")
    | _, _, _, _ => .error (.schema "record")
  | _ => .error (.schema "record")

/-- Validate a list of JSON values as `typing.List[DNSARecordModel]`. -/
def validateRecordList (vs : List JValue) : Except SvcError (List DNSARecordModel) :=
  match vs with
  | [] => .ok []
  | v :: rest =>
    match DNSARecordModel.validate v, validateRecordList rest with
    | .ok r, .ok rs => .ok (r :: rs)
    | .error e, _ => .error e
    | _, .error e => .error e

/-- `DNSARecordResponseModel.model_validate_json`: the body must be a JSON
object with `status` the literal `"SUCCESS"` and `records` a list of
`DNSARecordModel`.  No length condition on `records` is enforced here: the
`check_records_length` validator is dead at runtime (see its doc comment). -/
def DNSARecordResponseModel.validate (v : JValue) :
    Except SvcError DNSARecordResponseModel :=
  match v with
  | .obj fs =>
    match getField fs "status", getField fs "records" with
    | some (.str st), some (.arr rs) =>
      if st = "SUCCESS" then
        match validateRecordList rs with
        | .ok recs => .ok ⟨st, recs⟩
        | .error e => .error e
      else .error (.schema "status")
    | _, _ => .error (.schema "response")
  | _ => .error (.schema "response")

/-- `@dataclasses.dataclass class ARecord`: `ip: str`, `ttl: int`. -/
structure ARecord where
  ip : String
  ttl : Int
deriving DecidableEq, Repr

/-- `class PorkBun`: stored configuration from `__init__`
(`self.timeout`, `self.api_key`, `self.api_secret`; `verbose` only touches
the module logger, it is not stored). -/
structure PorkBun where
  api_key : String
  api_secret : String
  timeout : Int
deriving DecidableEq, Repr

/-- `_PORKBUN_API_GET_ENDPOINT.format(domain=domain)`. -/
def PorkBun.getEndpoint (domain : String) : String :=
  "https://porkbun.com/api/json/v3/dns/retrieveByNameType/" ++ domain ++ "/A/"

/-- `_PORKBUN_API_EDIT_ENDPOINT.format(domain=domain)`. -/
def PorkBun.editEndpoint (domain : String) : String :=
  "https://porkbun.com/api/json/v3/dns/editByNameType/" ++ domain ++ "/A/"

/-- JSON body of the `get_a_record` POST request. -/
def PorkBun.getRequestBody (c : PorkBun) : List (String × JValue) :=
  [("secretapikey", .str c.api_secret), ("apikey", .str c.api_key)]

/-- JSON body of the `update_a_record` POST request: the TTL integer is
serialized with `str(ttl)`. -/
def PorkBun.updateRequestBody (c : PorkBun) (ip : String) (ttl : Int) :
    List (String × JValue) :=
  [("secretapikey", .str c.api_secret), ("apikey", .str c.api_key),
   ("content", .str ip), ("ttl", .str (pyStr ttl))]

/-- `PorkBun.get_a_record`: POST to the retrieve endpoint,
`raise_for_status`, `DNSARecordResponseModel.model_validate_json`, then
`ARecord(ip=parsed.record.content, ttl=int(parsed.record.ttl))` where
`parsed.record` is `records[0]` (an `IndexError` on an empty list) and
`int(...)` is Python's decimal conversion (a `ValueError` on a non-numeric
string).  The response to the POST is the `resp` input. -/
def PorkBun.get_a_record (_c : PorkBun) (_domain : String) (resp : HttpResult) :
    Except SvcError ARecord :=
  match resp with
  | .transportError => .error .transport
  | .response code body =>
    if raiseForStatusFails code then .error (.httpStatus code)
    else
      match DNSARecordResponseModel.validate body with
      | .error e => .error e
      | .ok parsed =>
        match parsed.records with
        | [] => .error .indexError
        | r :: _ =>
          match pythonInt r.ttl with
          | none => .error (.valueError r.ttl)
          | some t => .ok ⟨r.content, t⟩

/-- `PorkBun.update_a_record`: POST to the edit endpoint, then only
`raise_for_status` — the response body is never read ("200 indicates
success, no need to check JSON response").  Returns `None` on success. -/
def PorkBun.update_a_record (_c : PorkBun) (_domain _ip : String) (_ttl : Int)
    (resp : HttpResult) : Except SvcError Unit :=
  match resp with
  | .transportError => .error .transport
  | .response code _body =>
    if raiseForStatusFails code then .error (.httpStatus code) else .ok ()

/-! State-passing forms of the three client methods, for the frame
property: each returns its result together with the client state after the
call.  None of the method bodies contains an assignment to `self`, so the
post-state is the record rebuilt from the unchanged fields. -/

/-- `get_a_record` with the explicit post-call client state. -/
def PorkBun.get_a_record_st (c : PorkBun) (domain : String) (resp : HttpResult) :
    Except SvcError ARecord × PorkBun :=
  (c.get_a_record domain resp,
   { api_key := c.api_key, api_secret := c.api_secret, timeout := c.timeout })

/-- `update_a_record` with the explicit post-call client state. -/
def PorkBun.update_a_record_st (c : PorkBun) (domain ip : String) (ttl : Int)
    (resp : HttpResult) : Except SvcError Unit × PorkBun :=
  (c.update_a_record domain ip ttl resp,
   { api_key := c.api_key, api_secret := c.api_secret, timeout := c.timeout })

/-- `get_current_ip` with the explicit post-call client state. -/
def IPify.get_current_ip_st (c : IPify) (resp : HttpResult) :
    Except SvcError IP × IPify :=
  (c.get_current_ip resp, { timeout := c.timeout })

/-! ## `updater.py` -/

/-- argparse default of `--ttl`. -/
def defaultTtl : Int := 600

/-- argparse default of `--timeout`. -/
def defaultTimeout : Int := 10

/-- `concurrent.futures.ThreadPoolExecutor(max_workers=2)`. -/
def executorMaxWorkers : Nat := 2

/-- One `update_a_record` invocation with its arguments, as issued by the
reconciliation pass. -/
structure UpdateCall where
  domain : String
  ip : String
  ttl : Int
deriving DecidableEq, Repr

/-- The external world of one reconciliation pass: the responses the three
possible HTTP requests would receive. -/
structure Env where
  recordResp : HttpResult
  ipResp : HttpResult
  updateResp : HttpResult

/-- The serial tail of `updater.py` after both futures are joined: compare
`current.ip != record.ip` (exact string inequality) and on mismatch call
`update_a_record(domain=args.domain, ip=current.ip, ttl=args.ttl)`; on a
failed read the exception propagates and no update request is made.
Returns the pass outcome together with the list of update calls issued. -/
def reconcile (pb : PorkBun) (domain : String) (ttl : Int)
    (recordRes : Except SvcError ARecord) (currentRes : Except SvcError IP)
    (updateResp : HttpResult) : Except SvcError Unit × List UpdateCall :=
  match recordRes with
  | .error e => (.error e, [])
  | .ok record =>
    match currentRes with
    | .error e => (.error e, [])
    | .ok current =>
      if current.ip ≠ record.ip then
        (pb.update_a_record domain current.ip ttl updateResp,
         [⟨domain, current.ip, ttl⟩])
      else
        (.ok (), [])

/-- One reconciliation pass of `updater.py`: run `get_a_record(domain)` and
`get_current_ip()` (submitted to the two-worker pool), join both, then the
serial compare-and-update tail. -/
def runUpdater (pb : PorkBun) (ipc : IPify) (domain : String) (ttl : Int)
    (env : Env) : Except SvcError Unit × List UpdateCall :=
  reconcile pb domain ttl (pb.get_a_record domain env.recordResp)
    (ipc.get_current_ip env.ipResp) env.updateResp

/-- Order in which the two submitted tasks complete on the worker pool. -/
inductive TaskOrder where
  | recordFirst
  | ipFirst
deriving DecidableEq, Repr

/-- The reconciliation pass with an explicit completion order of the two
futures: both tasks run to completion in the given order, each future
stores its task's outcome, and `record_task.result()` /
`current_task.result()` read the stored outcomes before the serial tail
runs. -/
def runUpdaterSched (pb : PorkBun) (ipc : IPify) (domain : String) (ttl : Int)
    (env : Env) (ord : TaskOrder) : Except SvcError Unit × List UpdateCall :=
  match ord with
  | .recordFirst =>
    let recordRes := pb.get_a_record domain env.recordResp
    let currentRes := ipc.get_current_ip env.ipResp
    reconcile pb domain ttl recordRes currentRes env.updateResp
  | .ipFirst =>
    let currentRes := ipc.get_current_ip env.ipResp
    let recordRes := pb.get_a_record domain env.recordResp
    reconcile pb domain ttl recordRes currentRes env.updateResp

/-! ## Arithmetic facts about the `int()` / `str()` models -/

/-- Decimal digit characters are digits, are not whitespace, are not sign
characters, and decode to their value. -/
lemma digitChar_props (d : Nat) (h : d < 10) :
    (Nat.digitChar d).isDigit = true ∧ (Nat.digitChar d).isWhitespace = false ∧
    Nat.digitChar d ≠ '+' ∧ Nat.digitChar d ≠ '-' ∧
    charToDigit (Nat.digitChar d) = d := by
  interval_cases d <;> exact ⟨by decide, by decide, by decide, by decide, by decide⟩

/-- Every character of `natToDigitsRev n` is a decimal digit character. -/
lemma natToDigitsRev_mem (n : Nat) :
    ∀ c ∈ natToDigitsRev n, ∃ d, d < 10 ∧ c = Nat.digitChar d := by
  induction n using Nat.strong_induction_on with
  | _ n ih =>
    rw [natToDigitsRev.eq_def]
    split
    · intro c hc
      simp only [List.mem_singleton] at hc
      exact ⟨n, by omega, hc⟩
    · intro c hc
      rcases List.mem_cons.mp hc with h | h
      · exact ⟨n % 10, Nat.mod_lt _ (by omega), h⟩
      · exact ih (n / 10) (Nat.div_lt_self (by omega) (by omega)) c h

lemma natToDigitsRev_ne_nil (n : Nat) : natToDigitsRev n ≠ [] := by
  rw [natToDigitsRev.eq_def]
  split <;> simp

/-- Value of the big-endian digit fold over the little-endian digit list. -/
lemma foldr_natToDigitsRev (n : Nat) : ∀ acc : Nat,
    (natToDigitsRev n).foldr (fun c a => a * 10 + charToDigit c) acc
      = acc * 10 ^ (natToDigitsRev n).length + n := by
  induction n using Nat.strong_induction_on with
  | _ n ih =>
    intro acc
    rw [natToDigitsRev.eq_def]
    split
    · rename_i h
      simp only [List.foldr_cons, List.foldr_nil, List.length_singleton,
        pow_one, (digitChar_props n h).2.2.2.2]
    · rename_i h
      have hd : n / 10 < n := Nat.div_lt_self (by omega) (by omega)
      simp only [List.foldr_cons, List.length_cons]
      rw [ih (n / 10) hd,
        (digitChar_props (n % 10) (Nat.mod_lt _ (by omega))).2.2.2.2, pow_succ,
        Nat.add_mul, add_assoc, Nat.div_add_mod']
      ring

/-- `parseDigitsAux` accepts a pure digit run and folds up its value. -/
lemma parseDigitsAux_of_digits : ∀ (l : List Char) (acc : Nat),
    (∀ c ∈ l, c.isDigit = true) →
    parseDigitsAux acc l
      = some (l.foldl (fun a c => a * 10 + charToDigit c) acc) := by
  intro l
  induction l with
  | nil => intro acc _; rfl
  | cons c rest ih =>
    intro acc h
    have hc : c.isDigit = true := h c (List.mem_cons_self c rest)
    rw [parseDigitsAux.eq_def]
    simp only [hc, if_true, List.foldl_cons]
    exact ih _ (fun x hx => h x (List.mem_cons_of_mem c hx))

/-- `parseDigits` accepts a nonempty pure digit run and returns its value. -/
lemma parseDigits_of_digits (l : List Char) (hne : l ≠ [])
    (h : ∀ c ∈ l, c.isDigit = true) :
    parseDigits l = some (l.foldl (fun a c => a * 10 + charToDigit c) 0) := by
  match l, hne with
  | c :: rest, _ =>
    have hc : c.isDigit = true := h c (List.mem_cons_self c rest)
    simp only [parseDigits, hc, if_true, List.foldl_cons, Nat.zero_mul,
      Nat.zero_add]
    exact parseDigitsAux_of_digits rest _
      (fun x hx => h x (List.mem_cons_of_mem c hx))

/-- The digit scan inverts the rendering: parsing the canonical big-endian
digit string of `n` yields `n`. -/
lemma parseDigits_natToDigitsRev (n : Nat) :
    parseDigits ((natToDigitsRev n).reverse) = some n := by
  have hne : (natToDigitsRev n).reverse ≠ [] := by
    simpa using natToDigitsRev_ne_nil n
  have hdig : ∀ c ∈ (natToDigitsRev n).reverse, c.isDigit = true := by
    intro c hc
    obtain ⟨d, hd, rfl⟩ := natToDigitsRev_mem n c (List.mem_reverse.mp hc)
    exact (digitChar_props d hd).1
  rw [parseDigits_of_digits _ hne hdig, List.foldl_reverse,
    foldr_natToDigitsRev, Nat.zero_mul, Nat.zero_add]

lemma dropWhile_eq_self_of (p : Char → Bool) (l : List Char)
    (h : ∀ c ∈ l, p c = false) : l.dropWhile p = l := by
  cases l with
  | nil => rfl
  | cons c rest => simp [List.dropWhile, h c (List.mem_cons_self c rest)]

/-- Trimming is the identity on whitespace-free strings. -/
lemma pyTrim_eq_self (l : List Char) (h : ∀ c ∈ l, c.isWhitespace = false) :
    pyTrim l = l := by
  unfold pyTrim
  rw [dropWhile_eq_self_of _ _ h,
    dropWhile_eq_self_of _ _ (fun c hc => h c (List.mem_reverse.mp hc)),
    List.reverse_reverse]

/-- Round trip, natural case: `int(str(n)) == n`. -/
lemma pythonInt_pyStrNat (n : Nat) : pythonInt (pyStrNat n) = some (n : Int) := by
  have hmem : ∀ c ∈ (natToDigitsRev n).reverse, ∃ d, d < 10 ∧ c = Nat.digitChar d :=
    fun c hc => natToDigitsRev_mem n c (List.mem_reverse.mp hc)
  have hws : ∀ c ∈ (natToDigitsRev n).reverse, c.isWhitespace = false := by
    intro c hc
    obtain ⟨d, hd, rfl⟩ := hmem c hc
    exact (digitChar_props d hd).2.1
  have hne : (natToDigitsRev n).reverse ≠ [] := by
    simpa using natToDigitsRev_ne_nil n
  obtain ⟨c, rest, hcr⟩ := List.exists_cons_of_ne_nil hne
  have hcd : ∃ d, d < 10 ∧ c = Nat.digitChar d := by
    apply hmem; rw [hcr]; exact List.mem_cons_self c rest
  obtain ⟨d, hd, rfl⟩ := hcd
  unfold pythonInt pyStrNat
  rw [show (String.mk ((natToDigitsRev n).reverse)).data
      = (natToDigitsRev n).reverse from rfl]
  rw [pyTrim_eq_self _ hws, hcr]
  simp only [(digitChar_props d hd).2.2.1, (digitChar_props d hd).2.2.2.1,
    if_false, reduceIte]
  rw [← hcr, parseDigits_natToDigitsRev]
  rfl

/-- Round trip, integer case: `int(str(t)) == t`. -/
lemma pythonInt_pyStr (t : Int) : pythonInt (pyStr t) = some t := by
  by_cases ht : t < 0
  · have hmem : ∀ c ∈ (natToDigitsRev t.natAbs).reverse,
        ∃ d, d < 10 ∧ c = Nat.digitChar d :=
      fun c hc => natToDigitsRev_mem _ c (List.mem_reverse.mp hc)
    have hws : ∀ c ∈ '-' :: (natToDigitsRev t.natAbs).reverse,
        c.isWhitespace = false := by
      intro c hc
      rcases List.mem_cons.mp hc with h | h
      · rw [h]; decide
      · obtain ⟨d, hd, rfl⟩ := hmem c h
        exact (digitChar_props d hd).2.1
    unfold pythonInt pyStr
    rw [if_pos ht]
    rw [show (String.mk ('-' :: (natToDigitsRev t.natAbs).reverse)).data
        = '-' :: (natToDigitsRev t.natAbs).reverse from rfl]
    rw [pyTrim_eq_self _ hws]
    simp only [reduceIte, parseDigits_natToDigitsRev, Option.map_some]
    show some (-(t.natAbs : Int)) = some t
    rw [show -(t.natAbs : Int) = t by omega]
  · have heq : pyStr t = pyStrNat t.natAbs := by
      unfold pyStr pyStrNat
      rw [if_neg ht]
    rw [heq, pythonInt_pyStrNat]
    congr 1
    omega

/-! ## Concrete fixtures (used by the closed instances below) -/

/-- A PorkBun client with concrete credentials. -/
def pbW : PorkBun := ⟨"apikey1", "secret1", 10⟩

/-- An IPify client with the default timeout. -/
def ipcW : IPify := ⟨10⟩

/-- A JSON record object as the provider's read endpoint reports one. -/
def recordBody (nm ty ct tl : String) : JValue :=
  .obj [("name", .str nm), ("type", .str ty), ("content", .str ct),
    ("ttl", .str tl)]

/-- A JSON read-response body with status `"SUCCESS"` and the given records. -/
def retrieveBody (recs : List JValue) : JValue :=
  .obj [("status", .str "SUCCESS"), ("records", .arr recs)]

/-- A JSON ipify response body. -/
def ipBody (s : String) : JValue := .obj [("ip", .str s)]

/-- Environment: record `1.2.3.4`, current IP `5.6.7.8`, update accepted. -/
def envMismatch : Env :=
  ⟨.response 200 (retrieveBody [recordBody "example.com" "A" "1.2.3.4" "600"]),
   .response 200 (ipBody "5.6.7.8"),
   .response 200 .null⟩

/-- Environment: record and current IP both `1.2.3.4`. -/
def envMatch : Env :=
  ⟨.response 200 (retrieveBody [recordBody "example.com" "A" "1.2.3.4" "600"]),
   .response 200 (ipBody "1.2.3.4"),
   .response 200 .null⟩

/-- Environment: the DNS-record read fails at transport level. -/
def envRecordDown : Env :=
  ⟨.transportError, .response 200 (ipBody "5.6.7.8"), .response 200 .null⟩

/-! ## Claims -/

/-- C1: in every reconciliation pass where both reads succeed and the
looked-up current IP string differs from the DNS record's IP string, exactly
one update call is issued, carrying the domain, the looked-up current IP and
the caller-configured TTL — regardless of the TTL the DNS record currently
holds (the `record.ttl` below is arbitrary). -/
theorem mismatch_issues_one_update (pb : PorkBun) (ipc : IPify)
    (domain : String) (ttl : Int) (env : Env) (record : ARecord) (current : IP)
    (hrec : pb.get_a_record domain env.recordResp = .ok record)
    (hip : ipc.get_current_ip env.ipResp = .ok current)
    (hne : current.ip ≠ record.ip) :
    (runUpdater pb ipc domain ttl env).2 = [⟨domain, current.ip, ttl⟩] := by
  simp [runUpdater, reconcile, hrec, hip, hne]

/-- Closed instance of C1: record IP `1.2.3.4` (ttl 600), current IP
`5.6.7.8`, configured TTL 600 — one update call with `5.6.7.8` and 600. -/
theorem mismatch_issues_one_update_witness :
    pbW.get_a_record "example.com" envMismatch.recordResp = .ok ⟨"1.2.3.4", 600⟩ ∧
    ipcW.get_current_ip envMismatch.ipResp = .ok ⟨"5.6.7.8"⟩ ∧
    ("5.6.7.8" : String) ≠ "1.2.3.4" ∧
    (runUpdater pbW ipcW "example.com" 600 envMismatch).2
      = [⟨"example.com", "5.6.7.8", 600⟩] :=
  ⟨rfl, rfl, by decide,
    mismatch_issues_one_update pbW ipcW "example.com" 600 envMismatch
      ⟨"1.2.3.4", 600⟩ ⟨"5.6.7.8"⟩ rfl rfl (by decide)⟩

/-- C2: in every reconciliation pass where both reads succeed and the
looked-up current IP string is exactly equal, as a string, to the DNS
record's IP string, no update call is issued. -/
theorem match_issues_no_update (pb : PorkBun) (ipc : IPify)
    (domain : String) (ttl : Int) (env : Env) (record : ARecord) (current : IP)
    (hrec : pb.get_a_record domain env.recordResp = .ok record)
    (hip : ipc.get_current_ip env.ipResp = .ok current)
    (heq : current.ip = record.ip) :
    (runUpdater pb ipc domain ttl env).2 = [] := by
  simp [runUpdater, reconcile, hrec, hip, heq]

/-- Closed instance of C2: record IP and current IP both `1.2.3.4` — no
update call. -/
theorem match_issues_no_update_witness :
    pbW.get_a_record "example.com" envMatch.recordResp = .ok ⟨"1.2.3.4", 600⟩ ∧
    ipcW.get_current_ip envMatch.ipResp = .ok ⟨"1.2.3.4"⟩ ∧
    ("1.2.3.4" : String) = "1.2.3.4" ∧
    (runUpdater pbW ipcW "example.com" 600 envMatch).2 = [] :=
  ⟨rfl, rfl, rfl,
    match_issues_no_update pbW ipcW "example.com" 600 envMatch
      ⟨"1.2.3.4", 600⟩ ⟨"1.2.3.4"⟩ rfl rfl rfl⟩

/-- C4: if either the DNS-record read or the IP lookup fails, the whole pass
fails and no update call is issued — there is no partial-success path. -/
theorem read_failure_aborts_pass (pb : PorkBun) (ipc : IPify)
    (domain : String) (ttl : Int) (env : Env) (e : SvcError)
    (h : pb.get_a_record domain env.recordResp = .error e ∨
         ipc.get_current_ip env.ipResp = .error e) :
    (∃ e', (runUpdater pb ipc domain ttl env).1 = .error e') ∧
    (runUpdater pb ipc domain ttl env).2 = [] := by
  rcases h with h | h
  · exact ⟨⟨e, by simp [runUpdater, reconcile, h]⟩,
      by simp [runUpdater, reconcile, h]⟩
  · cases hrec : pb.get_a_record domain env.recordResp with
    | error e2 =>
      exact ⟨⟨e2, by simp [runUpdater, reconcile, hrec]⟩,
        by simp [runUpdater, reconcile, hrec]⟩
    | ok record =>
      exact ⟨⟨e, by simp [runUpdater, reconcile, hrec, h]⟩,
        by simp [runUpdater, reconcile, hrec, h]⟩

/-- Closed instance of C4: the DNS-record read fails at transport level —
the pass errors out and no update call is issued. -/
theorem read_failure_aborts_pass_witness :
    (pbW.get_a_record "example.com" envRecordDown.recordResp = .error .transport ∨
     ipcW.get_current_ip envRecordDown.ipResp = .error .transport) ∧
    ((∃ e', (runUpdater pbW ipcW "example.com" 600 envRecordDown).1 = .error e') ∧
     (runUpdater pbW ipcW "example.com" 600 envRecordDown).2 = []) :=
  ⟨Or.inl rfl,
    read_failure_aborts_pass pbW ipcW "example.com" 600 envRecordDown .transport
      (Or.inl rfl)⟩

/-- A provider read response carrying two A records. -/
def twoRecordsBody : JValue :=
  retrieveBody [recordBody "example.com" "A" "1.2.3.4" "600",
    recordBody "example.com" "A" "5.6.7.8" "300"]

/-- A provider read response carrying zero records. -/
def emptyRecordsBody : JValue := retrieveBody []

/-- C3 (refuted — the code contradicts its own validator): on a two-record
response, `get_a_record` silently returns the first record instead of
failing, because the `@classmethod`-outside-`@pydantic.validator` decorator
ordering keeps `check_records_length` from ever running; the validator body
as written would reject that list, and a pass fed this ambiguous state even
issues an update call.  On a zero-record response the failure is an
`IndexError` from `records[0]`, not the intended validation error. -/
theorem ambiguous_records_not_rejected :
    pbW.get_a_record "example.com" (.response 200 twoRecordsBody)
      = .ok ⟨"1.2.3.4", 600⟩ ∧
    check_records_length
        [⟨"example.com", "A", "1.2.3.4", "600"⟩,
         ⟨"example.com", "A", "5.6.7.8", "300"⟩]
      = .error "Records list must contain exactly one item" ∧
    (runUpdater pbW ipcW "example.com" 600
        ⟨.response 200 twoRecordsBody, .response 200 (ipBody "9.9.9.9"),
         .response 200 .null⟩).2
      = [⟨"example.com", "9.9.9.9", 600⟩] ∧
    pbW.get_a_record "example.com" (.response 200 emptyRecordsBody)
      = .error .indexError :=
  ⟨rfl, rfl, rfl, rfl⟩

/-- C5: TTL round-trip — a read response whose single record carries the
TTL as the decimal string of `n` parses to an `ARecord` with integer TTL
`n`; the update request body serializes the integer TTL back to its decimal
string form, and that serialization is inverted by `int()`. -/
theorem ttl_round_trip (pb : PorkBun) (domain nm ct ip : String) (n : Nat)
    (t : Int) :
    pb.get_a_record domain
        (.response 200 (retrieveBody [recordBody nm "A" ct (pyStrNat n)]))
      = .ok ⟨ct, (n : Int)⟩ ∧
    getField (pb.updateRequestBody ip t) "ttl" = some (.str (pyStr t)) ∧
    pythonInt (pyStr t) = some t := by
  refine ⟨?_, rfl, pythonInt_pyStr t⟩
  simp [PorkBun.get_a_record, DNSARecordResponseModel.validate,
    validateRecordList, DNSARecordModel.validate, retrieveBody, recordBody,
    getField, raiseForStatusFails, pythonInt_pyStrNat]

/-- C6: on a successful lookup `get_current_ip` returns exactly the string
in the response's `ip` member — no normalization and no syntax validation;
a body without that member, a transport failure, and a failure HTTP status
each make the operation fail. -/
theorem get_current_ip_exact (c : IPify) (code : Nat)
    (fs : List (String × JValue)) (s : String)
    (hcode : raiseForStatusFails code = false)
    (hip : getField fs "ip" = some (.str s)) :
    c.get_current_ip (.response code (.obj fs)) = .ok ⟨s⟩ ∧
    (∀ fs', getField fs' "ip" = none →
      ∃ e, c.get_current_ip (.response code (.obj fs')) = .error e) ∧
    c.get_current_ip .transportError = .error .transport ∧
    (∀ code' body, raiseForStatusFails code' = true →
      c.get_current_ip (.response code' body) = .error (.httpStatus code')) := by
  refine ⟨?_, ?_, rfl, ?_⟩
  · simp [IPify.get_current_ip, IPifyResponseModel.validate, hcode, hip]
  · intro fs' h
    refine ⟨.schema "ip", ?_⟩
    simp [IPify.get_current_ip, IPifyResponseModel.validate, hcode, h]
  · intro code' body h
    simp [IPify.get_current_ip, h]

/-- Closed instance of C6: the upstream string is returned verbatim even
when it is not a syntactically valid IP. -/
theorem get_current_ip_exact_witness :
    raiseForStatusFails 200 = false ∧
    getField [("ip", JValue.str "001.2.3.4 odd")] "ip"
      = some (.str "001.2.3.4 odd") ∧
    (ipcW.get_current_ip
        (.response 200 (.obj [("ip", JValue.str "001.2.3.4 odd")]))
      = .ok ⟨"001.2.3.4 odd"⟩ ∧
     (∀ fs', getField fs' "ip" = none →
       ∃ e, ipcW.get_current_ip (.response 200 (.obj fs')) = .error e) ∧
     ipcW.get_current_ip .transportError = .error .transport ∧
     (∀ code' body, raiseForStatusFails code' = true →
       ipcW.get_current_ip (.response code' body) = .error (.httpStatus code'))) :=
  ⟨rfl, rfl,
    get_current_ip_exact ipcW 200 [("ip", JValue.str "001.2.3.4 odd")]
      "001.2.3.4 odd" rfl rfl⟩

/-- C7: `update_a_record` never parses the provider's response body (the
result is the same for any two bodies) and, once a response arrives, it
returns unit exactly when `raise_for_status` accepts the status code —
a failure HTTP status is the only failure after the request is sent. -/
theorem update_ignores_body (c : PorkBun) (domain ip : String) (ttl : Int)
    (code : Nat) (b1 b2 : JValue) :
    c.update_a_record domain ip ttl (.response code b1)
      = c.update_a_record domain ip ttl (.response code b2) ∧
    c.update_a_record domain ip ttl (.response code b1)
      = (if raiseForStatusFails code then .error (.httpStatus code)
         else .ok ()) :=
  ⟨rfl, rfl⟩

/-- C8: the DNS read and the IP read are the two tasks submitted to the
size-two worker pool; both are joined before the comparison/update tail
runs, and the completion order of the two reads never changes the outcome
of the pass. -/
theorem read_order_irrelevant (pb : PorkBun) (ipc : IPify) (domain : String)
    (ttl : Int) (env : Env) :
    executorMaxWorkers = 2 ∧
    ∀ ord : TaskOrder, runUpdaterSched pb ipc domain ttl env ord
      = runUpdater pb ipc domain ttl env := by
  refine ⟨rfl, fun ord => ?_⟩
  cases ord <;> rfl

/-- C9: no client operation changes the client's stored configuration —
`get_a_record` and `update_a_record` leave the PorkBun client's `api_key`,
`api_secret` and `timeout` unchanged, and `get_current_ip` leaves the IPify
client's `timeout` unchanged. -/
theorem client_config_unchanged (c : PorkBun) (ic : IPify)
    (domain ip : String) (ttl : Int) (r1 r2 r3 : HttpResult) :
    (c.get_a_record_st domain r1).2 = c ∧
    (c.update_a_record_st domain ip ttl r2).2 = c ∧
    (ic.get_current_ip_st r3).2 = ic :=
  ⟨rfl, rfl, rfl⟩

/-- C10: schema validation only requires the record's `ttl` member to be a
string (with `type` the literal `"A"` and `status` the literal
`"SUCCESS"`); the string-to-integer conversion happens afterwards, so a
response whose single record carries a non-numeric ttl string passes schema
validation yet makes `get_a_record` fail at the conversion step instead of
returning an `ARecord`. -/
theorem ttl_schema_then_conversion (pb : PorkBun) (domain nm ct s : String)
    (hbad : pythonInt s = none) :
    DNSARecordResponseModel.validate (retrieveBody [recordBody nm "A" ct s])
      = .ok ⟨"SUCCESS", [⟨nm, "A", ct, s⟩]⟩ ∧
    pb.get_a_record domain
        (.response 200 (retrieveBody [recordBody nm "A" ct s]))
      = .error (.valueError s) := by
  constructor
  · simp [DNSARecordResponseModel.validate, validateRecordList,
      DNSARecordModel.validate, retrieveBody, recordBody, getField]
  · simp [PorkBun.get_a_record, DNSARecordResponseModel.validate,
      validateRecordList, DNSARecordModel.validate, retrieveBody, recordBody,
      getField, raiseForStatusFails, hbad]

/-- Closed instance of C10: ttl string `"abc"` passes schema validation and
fails the pass at the `int()` conversion. -/
theorem ttl_schema_then_conversion_witness :
    pythonInt "abc" = none ∧
    (DNSARecordResponseModel.validate
        (retrieveBody [recordBody "example.com" "A" "1.2.3.4" "abc"])
      = .ok ⟨"SUCCESS", [⟨"example.com", "A", "1.2.3.4", "abc"⟩]⟩ ∧
     pbW.get_a_record "example.com"
        (.response 200 (retrieveBody [recordBody "example.com" "A" "1.2.3.4" "abc"]))
      = .error (.valueError "abc")) :=
  ⟨rfl,
    ttl_schema_then_conversion pbW "example.com" "example.com" "1.2.3.4" "abc" rfl⟩

end PorkBunDDNS
